import Mathlib

/-!
# kportforward supervisor core: shallow embedding and verification

This file embeds the supervisor engine of the `kportforward` repository
(`internal/portforward/manager.go`, `internal/portforward/service.go`,
`internal/utils/ports.go`) as executable Lean definitions and proves or
refutes the frozen claims about it.

Conventions of the embedding:
* Go `time.Time` values are modelled as natural numbers (seconds); the Go
  zero time is `0`.  `time.Duration` values are seconds.  `a.Before(b)` is
  `a < b`; `a.Sub(b)` is truncated subtraction `a - b`, which agrees with
  the Go comparisons used by the source (`now.Sub(lastCheck) < 5s` is also
  satisfied by a negative duration, and `0 < 5` in ℕ).
* Strings are Lean `String`; `strings.Contains` and `strings.ToLower` are
  re-implemented on the underlying character lists so that every use is
  executable and provable by kernel reduction.
* External effects (spawning the kubectl child, binding listeners, running
  probes) are passed in as explicit oracle arguments; the functions below
  compute exactly the state transformation the Go source performs for a
  given oracle outcome.
-/

/-! ## String primitives (embedding of `strings.Contains` / `strings.ToLower`) -/

/-- Predicate `hasPrefixCL pat s`: the character list `pat` is a prefix of `s`. -/
def hasPrefixCL : List Char → List Char → Bool
  | [], _ => true
  | _ :: _, [] => false
  | c :: cs, d :: ds => c == d && hasPrefixCL cs ds

/-- Predicate `containsCL pat s`: `pat` occurs as a contiguous run inside `s`.
This is the semantics of Go's `strings.Contains(s, pat)`. -/
def containsCL (pat : List Char) : List Char → Bool
  | [] => pat.isEmpty
  | c :: rest => hasPrefixCL pat (c :: rest) || containsCL pat rest

/-- Embedding of Go `strings.Contains(s, pat)`. -/
def containsStr (s pat : String) : Bool :=
  containsCL pat.data s.data

/-- Embedding of Go `strings.ToLower` (ASCII case folding, which covers every
keyword the classifiers test for). -/
def lowerStr (s : String) : String :=
  ⟨s.data.map Char.toLower⟩

/-! ## Service data model

`Status` is the closed set of status strings the source stores in
`ServiceStatus.Status`.  `ServiceState` merges the fields of
`config.ServiceStatus` with the private bookkeeping fields of
`ServiceManager` (failure counts, cooldown, the `cmd` handle); the source
keeps them on the same object (`ServiceManager` embeds `*ServiceStatus`).
-/

inductive Status where
  | Starting | Connecting | Running | Degraded | Reconnecting
  | Failed | Cooldown | Suspended | Stopped
  deriving DecidableEq, Repr

/-- The per-service mutable state: the fields of `config.ServiceStatus`
(status, localPort, pid, startTime, restartCount, lastError, statusMessage,
inCooldown) together with `ServiceManager`'s private fields
(`cmd` modelled as the flag `hasCmd`, `failureCount`, `cooldownUntil`,
`consecutiveFailures`, `healthCheckFailures`).  Counters that Go declares
as `int` and decrements are `Int`. -/
structure ServiceState where
  status : Status
  localPort : Nat
  pid : Nat
  startTime : Nat
  restartCount : Nat
  lastError : String
  statusMessage : String
  inCooldown : Bool
  hasCmd : Bool
  failureCount : Nat
  cooldownUntil : Nat
  consecutiveFailures : Int
  healthCheckFailures : Int
  deriving DecidableEq, Repr

/-- Constant `backoffSeconds` from `NewServiceManager`: `{5, 10, 20, 40, 60}`. -/
def backoffSeconds : List Nat := [5, 10, 20, 40, 60]

/-- Constant `maxFailureThreshold` from `NewServiceManager`. -/
def maxFailureThreshold : Int := 3

/-! ## Error classifiers (`isAuthError`, `isNetworkError` in manager.go) -/

/-- Embedding of `isAuthError` (manager.go): lowercase the error text and
look for any of the authentication/authorization keywords. -/
def isAuthError (s : String) : Bool :=
  let e := lowerStr s
  containsStr e "unauthorized" ||
  containsStr e "authentication" ||
  containsStr e "token" ||
  containsStr e "credential" ||
  containsStr e "forbidden" ||
  containsStr e "invalid user" ||
  containsStr e "access denied" ||
  containsStr e "unable to load aws credentials" ||
  containsStr e "expired" ||
  containsStr e "sso" ||
  containsStr e "login" ||
  containsStr e "auth" ||
  containsStr e "permission denied" ||
  containsStr e "invalid_grant" ||
  containsStr e "session" ||
  containsStr e "getting credentials" ||
  containsStr e "refresh failed" ||
  containsStr e "executable aws failed" ||
  containsStr e "unable to connect to the server"

/-- Embedding of `isNetworkError` (manager.go). -/
def isNetworkError (s : String) : Bool :=
  let e := lowerStr s
  containsStr e "connection refused" ||
  containsStr e "timeout" ||
  containsStr e "network" ||
  containsStr e "no route to host" ||
  containsStr e "connection timed out" ||
  containsStr e "dial tcp" ||
  containsStr e "i/o timeout"

/-! ## Per-service backoff (`handleFailure`, `isInCooldown`, `resetFailureCount`) -/

/-- Embedding of `ServiceManager.handleFailure`: increment `failureCount`;
below 3 failures leave the cooldown untouched, from the 3rd failure on set
`cooldownUntil := now + backoffSeconds[failureCount-3]`, clamping the index
to the last element. -/
def handleFailure (s : ServiceState) (now : Nat) : ServiceState :=
  let fc := s.failureCount + 1
  if fc < 3 then
    { s with failureCount := fc }
  else
    let backoffIndex := min (fc - 3) (backoffSeconds.length - 1)
    { s with failureCount := fc,
             cooldownUntil := now + backoffSeconds.getD backoffIndex 0 }

/-- Embedding of `ServiceManager.isInCooldown`: `time.Now().Before(cooldownUntil)`. -/
def isInCooldown (s : ServiceState) (now : Nat) : Bool :=
  now < s.cooldownUntil

/-- Embedding of `ServiceManager.resetFailureCount`. -/
def resetFailureCount (s : ServiceState) : ServiceState :=
  if s.failureCount > 0 then
    { s with failureCount := 0, cooldownUntil := 0 }
  else s

/-! ## Service lifecycle (`Start`, `Stop`, `Restart` of `ServiceManager`)

`Start`'s two external effects — port resolution and the kubectl spawn —
are passed as oracle arguments: `portRes` is the outcome of `resolvePort`
(`Sum.inl port` on success, `Sum.inr errMsg` on failure) and `spawn` is the
outcome of `StartKubectlPortForward` (`Sum.inl pid` or `Sum.inr errMsg`).
The returned `Bool` is `true` iff the Go method returned a nil error.
-/

/-- Embedding of `ServiceManager.Stop`. -/
def smStop (s : ServiceState) : ServiceState :=
  { s with hasCmd := false, status := .Stopped, pid := 0 }

/-- Embedding of `ServiceManager.Start` (the revision recorded in the
repository source: on a spawn failure `handleFailure` runs unconditionally). -/
def smStart (s : ServiceState) (now : Nat)
    (portRes : Sum Nat String) (spawn : Sum Nat String) : ServiceState × Bool :=
  if isInCooldown s now then
    ({ s with status := .Cooldown, inCooldown := true }, false)
  else
    match portRes with
    | .inr errMsg => ({ s with status := .Failed, lastError := errMsg }, false)
    | .inl actualPort =>
      let s := { s with localPort := actualPort }
      match spawn with
      | .inr errMsg =>
        (handleFailure { s with status := .Failed, lastError := errMsg } now, false)
      | .inl childPid =>
        ({ s with hasCmd := true, pid := childPid, startTime := now,
                  status := .Connecting,
                  statusMessage := "Waiting for port-forward to establish",
                  lastError := "", inCooldown := false,
                  healthCheckFailures := 0, consecutiveFailures := 0 }, true)

/-- Modelled from the spec: the repository's current
`internal/portforward/service.go` is not under `src/` (the copy appended to
`manager.go` as a related document is an earlier revision that predates the
global-access work — its `Start` calls the four-argument
`StartKubectlPortForward`, which no longer exists in `internal/utils`).
Per §4.4 "Auth-error specialization" and the in-repo tracking document
("Prevent individual service cooldowns during global failures",
`service.go`, marked complete), the spawn-failure path of the current
`Start` classifies the combined error + stderr text with the keyword
classifier and skips the local backoff (`handleFailure`) when the failure
is auth-classified; otherwise it behaves as the recorded revision does.
The classifier itself is `isAuthError` from manager.go, which is in `src/`
(service.go and manager.go share the `portforward` package). -/
def startSpawnFailure (s : ServiceState) (now : Nat) (combined errMsg : String) :
    ServiceState :=
  let s := { s with status := .Failed, lastError := errMsg }
  if isAuthError combined then s else handleFailure s now

/-- Embedding of `ServiceManager.Restart`: `Stop`, increment
`RestartCount`, then `Start`. -/
def smRestart (s : ServiceState) (now : Nat)
    (portRes : Sum Nat String) (spawn : Sum Nat String) : ServiceState × Bool :=
  let s1 := smStop s
  let s2 := { s1 with restartCount := s1.restartCount + 1 }
  smStart s2 now portRes spawn

/-- Embedding of the per-service work of `Manager.restartAllServices`
(the context-change teardown-and-restart, healthy-gate path): mark the
service `Reconnecting` with an explanatory message, `Stop` it, and later
call `Start` (not `Restart`) on it. -/
def contextChangeService (s : ServiceState) (now : Nat)
    (portRes : Sum Nat String) (spawn : Sum Nat String) : ServiceState × Bool :=
  let s1 := { s with status := .Reconnecting,
                     statusMessage := "Reconnecting due to context change" }
  smStart (smStop s1) now portRes spawn

/-! ## Fleet-wide suspension (`Manager.suspendAllServices`)

The port registry (`allocatedPorts` in `internal/utils/ports.go`) is
threaded through so that claims relating suspension to the registry can be
stated; `suspendAllServices` in the source never touches the registry. -/

/-- Per-service body of the loop in `Manager.suspendAllServices`. -/
def suspendService (s : ServiceState) : ServiceState :=
  if s.status = .Running ∨ s.status = .Degraded ∨
     s.status = .Connecting ∨ s.status = .Reconnecting then
    { s with hasCmd := false, status := .Suspended,
             statusMessage := "Suspended due to global kubectl access failure",
             pid := 0, startTime := 0 }
  else s

/-- Embedding of `Manager.suspendAllServices`, paired with the port
registry's reserved set (which the function does not reference). -/
def suspendAllServices (fleet : List (String × ServiceState)) (reserved : List Nat) :
    List (String × ServiceState) × List Nat :=
  (fleet.map (fun p => (p.1, suspendService p.2)), reserved)

/-! ## Health evaluation inside `ServiceManager.GetStatus`

`GetStatus` re-evaluates health only when the current status is one of
`Running`, `Degraded`, `Connecting`, `Reconnecting` and the 5-second
startup grace period has elapsed.  The probe outcomes are oracle inputs:
`gracePassed` is `time.Since(StartTime) > 5s`, `procRunning` is the
process-liveness check, `portCheck` the raw TCP connectivity check (the
source only consults it when the process is running).  The function below
is the state transformation the method performs; the method's return value
is a copy of the resulting status record. -/

/-- Message `fmt.Sprintf("Process not running (PID %d)", pid)`. -/
def processNotRunningMsg (pid : Nat) : String :=
  "Process not running (PID " ++ toString pid ++ ")"

/-- Message `fmt.Sprintf("Port %d not responding after multiple attempts", port)`. -/
def portNotRespondingMsg (port : Nat) : String :=
  "Port " ++ toString port ++ " not responding after multiple attempts"

/-- Message `fmt.Sprintf("Health check failed after %d consecutive failures", n)`. -/
def healthCheckFailedMsg (n : Int) : String :=
  "Health check failed after " ++ toString n ++ " consecutive failures"

/-- Embedding of the health-evaluation block of `ServiceManager.GetStatus`. -/
def getStatusUpdate (s : ServiceState)
    (gracePassed procRunning portCheck : Bool) : ServiceState :=
  if (s.status = .Running ∨ s.status = .Degraded ∨
      s.status = .Connecting ∨ s.status = .Reconnecting) ∧ gracePassed = true then
    let isProcessRunning := procRunning
    let isPortConnected := isProcessRunning && portCheck
    let isHealthy := isProcessRunning && isPortConnected
    let s1 :=
      if isHealthy then
        if s.status = .Failed then
          -- the source's Failed-recovery branch, kept verbatim (it sits
          -- inside the guard above, which excludes `Failed`)
          let s' := { s with consecutiveFailures := s.consecutiveFailures - 1 }
          if s'.consecutiveFailures ≤ 0 then
            resetFailureCount
              { s' with status := .Running, lastError := "", statusMessage := "" }
          else s'
        else if s.status = .Degraded then
          let s' := { s with consecutiveFailures := s.consecutiveFailures - 1 }
          if s'.consecutiveFailures ≤ 0 then
            { s' with status := .Running, statusMessage := "", lastError := "" }
          else s'
        else if s.status = .Connecting then
          { s with status := .Running, statusMessage := "", lastError := "" }
        else if s.status = .Reconnecting then
          { s with status := .Running, statusMessage := "", lastError := "" }
        else
          { s with consecutiveFailures := 0, statusMessage := "" }
      else
        let s' := { s with consecutiveFailures := s.consecutiveFailures + 1,
                           healthCheckFailures := s.healthCheckFailures + 1 }
        if s.status = .Running then
          { s' with status := .Degraded,
                    statusMessage := "Port connectivity issues",
                    consecutiveFailures := 2 }
        else if s.status = .Connecting then
          { s' with statusMessage := "Connection in progress..." }
        else if s.status = .Reconnecting then
          { s' with statusMessage := "Reconnection in progress..." }
        else s'
    if isHealthy = false ∧ maxFailureThreshold ≤ s1.consecutiveFailures ∧
       s1.status ≠ .Failed then
      { s1 with consecutiveFailures := 3, status := .Failed,
                lastError :=
                  if isProcessRunning = false then processNotRunningMsg s1.pid
                  else if isPortConnected = false then portNotRespondingMsg s1.localPort
                  else healthCheckFailedMsg s1.consecutiveFailures }
    else s1
  else s

/-! ## Global-access gate (`Manager.checkAndUpdateGlobalAccess` and friends) -/

/-- The manager's global-access state (`globalAccessHealthy`,
`globalAccessLastCheck`, `globalAccessFailCount`, `globalAccessCooldown`). -/
structure GlobalAccess where
  healthy : Bool
  lastCheck : Nat
  failCount : Nat
  cooldown : Nat
  deriving DecidableEq, Repr

/-- Embedding of the error-classification part of `Manager.checkGlobalAccess`:
on a probe failure the command error text and stderr are combined
(`fmt.Sprintf("%v %s", err, errorOutput)`) and classified; the function
returns the error message `checkGlobalAccess` produces (`none` = success). -/
def checkGlobalAccess (cmdFailed : Bool) (errText stderr : String) : Option String :=
  if cmdFailed then
    let combined : String := ⟨errText.data ++ ' ' :: stderr.data⟩
    if isAuthError combined then
      some ⟨("authentication failed: ").data ++ stderr.data⟩
    else if isNetworkError combined then
      some ⟨("network connectivity failed: ").data ++ stderr.data⟩
    else
      some ⟨("kubectl access failed: ").data ++ stderr.data⟩
  else none

/-- The auth-failure cooldown schedule of `checkAndUpdateGlobalAccess`:
5, 10, 30 minutes. -/
def authCooldowns : List Nat := [300, 600, 1800]

/-- The network-failure cooldown schedule: 30 s, 1 min, 2 min. -/
def networkCooldowns : List Nat := [30, 60, 120]

/-- The probe-and-update tail of `Manager.checkAndUpdateGlobalAccess`
(everything after the cooldown-window early returns): run the probe,
record `lastCheck := now`, and on failure increment the fail count and
install the cooldown chosen by the error text; on success reset the state. -/
def globalProbeStep (st : GlobalAccess) (now : Nat) (probe : Option String) :
    Bool × GlobalAccess :=
  match probe with
  | some e =>
    let fc := st.failCount + 1
    let cooldowns := if containsStr e "authentication" then authCooldowns
                     else networkCooldowns
    let cooldownIndex := min (fc - 1) (cooldowns.length - 1)
    (false, { healthy := false, lastCheck := now, failCount := fc,
              cooldown := now + cooldowns.getD cooldownIndex 0 })
  | none =>
    if st.healthy = false ∨ st.failCount > 0 then
      (true, { healthy := true, lastCheck := now, failCount := 0, cooldown := 0 })
    else
      (true, { st with lastCheck := now })

/-- Embedding of `Manager.checkAndUpdateGlobalAccess`.  Inside the cooldown
window the probe is skipped (state unchanged, the stored health returned),
except that an unhealthy gate re-probes once at least 5 seconds have passed
since the last check. -/
def checkAndUpdateGlobalAccess (st : GlobalAccess) (now : Nat)
    (probe : Option String) : Bool × GlobalAccess :=
  if now < st.cooldown then
    if st.healthy = false ∧ now - st.lastCheck < 5 then
      (st.healthy, st)
    else if st.healthy = false then
      globalProbeStep st now probe
    else
      (st.healthy, st)
  else
    globalProbeStep st now probe

/-- Embedding of `Manager.getGlobalStatusString`. -/
def getGlobalStatusString (st : GlobalAccess) (now : Nat) : String :=
  if st.healthy then "healthy"
  else if st.failCount > 0 then
    if now < st.cooldown then
      if st.cooldown - now > 120 then "auth_failure" else "network_failure"
    else "network_failure"
  else "network_failure"

/-! ## Context watcher (`Manager.checkKubernetesContext`) -/

/-- The trailing-newline strip in `getCurrentKubernetesContext`. -/
def trimTrailingNewline (s : String) : String :=
  if s.data ≠ [] ∧ s.data.getLast? = some '\n' then ⟨s.data.dropLast⟩ else s

/-- Embedding of `Manager.checkKubernetesContext` composed with
`getCurrentKubernetesContext`'s output handling.  `reading` is the raw
stdout of `kubectl config current-context` when the command succeeded, or
`none` when it failed (in which case `getCurrentKubernetesContext` returns
`("N/A", err)` and `checkKubernetesContext` returns early).  The result is
the cached context afterwards and whether the teardown-and-restart
(`restartAllServices`) was triggered. -/
def checkKubernetesContext (current : String) (reading : Option String) :
    String × Bool :=
  match reading with
  | none => (current, false)
  | some raw =>
    let newContext := trimTrailingNewline raw
    if newContext ≠ current ∧ newContext ≠ "N/A" then (newContext, true)
    else (current, false)

/-! ## Port registry (`internal/utils/ports.go`)

OS availability is an oracle pair `avail4`, `avail6` (whether a listener
can be bound on `127.0.0.1:port` and `[::1]:port`); the reserved set
`allocatedPorts` is a list of ports. -/

/-- Embedding of `IsPortAvailable`: a port is available iff listeners can
be bound on both loopbacks. -/
def isPortAvailable (avail4 avail6 : Nat → Bool) (port : Nat) : Bool :=
  avail4 port && avail6 port

/-- The scan loop `for port := startPort; port <= 65535; port++`,
as a recursion on the number of remaining candidates. -/
def findFrom (pred : Nat → Bool) : Nat → Nat → Option Nat
  | _, 0 => none
  | start, fuel + 1 => if pred start then some start else findFrom pred (start + 1) fuel

/-- The acceptance test of the scan body: the port is not in the
in-process reserved set (`allocatedPorts[port]` is false) and is
OS-available. -/
def portFree (reserved : List Nat) (avail4 avail6 : Nat → Bool) (port : Nat) : Bool :=
  !(reserved.contains port) && isPortAvailable avail4 avail6 port

/-- Embedding of `FindAvailablePortSafe`: scan `startPort, …, 65535`,
skipping ports in the in-process reserved set, and return the first
OS-available one, adding it to the reserved set; `none` models the
`"no available ports found"` error. -/
def findAvailablePortSafe (reserved : List Nat) (avail4 avail6 : Nat → Bool)
    (startPort : Nat) : Option (Nat × List Nat) :=
  match findFrom (portFree reserved avail4 avail6) startPort (65536 - startPort) with
  | some port => some (port, port :: reserved)
  | none => none

/-- Embedding of `ReleasePort`. -/
def releasePort (reserved : List Nat) (port : Nat) : List Nat :=
  reserved.filter (fun q => q ≠ port)

/-! ## Generic facts about the scan loop -/

/-- Lemma: `findFrom` finding nothing means every candidate in the scanned window
fails the test. -/
theorem findFrom_none_iff (pred : Nat → Bool) :
    ∀ (fuel start : Nat),
      (findFrom pred start fuel = none ↔
        ∀ q, start ≤ q → q < start + fuel → pred q = false) := by
  intro fuel
  induction fuel with
  | zero =>
    intro start
    constructor
    · intro _ q h1 h2
      omega
    · intro _
      rfl
  | succ f ih =>
    intro start
    rw [findFrom]
    by_cases hp : pred start = true
    · rw [if_pos hp]
      constructor
      · intro h
        exact absurd h (by simp)
      · intro hall
        have hfalse := hall start (le_refl _) (by omega)
        rw [hfalse] at hp
        exact absurd hp (by simp)
    · rw [if_neg hp]
      simp only [Bool.not_eq_true] at hp
      rw [ih (start + 1)]
      constructor
      · intro hall q h1 h2
        by_cases hq : q = start
        · rw [hq]
          exact hp
        · exact hall q (by omega) (by omega)
      · intro hall q h1 h2
        exact hall q (by omega) (by omega)

/-- Lemma: `findFrom` finding `p` means `p` is in the scanned window, passes the
test, and is the least such candidate. -/
theorem findFrom_some (pred : Nat → Bool) :
    ∀ (fuel start p : Nat), findFrom pred start fuel = some p →
      start ≤ p ∧ p < start + fuel ∧ pred p = true ∧
      ∀ q, start ≤ q → q < p → pred q = false := by
  intro fuel
  induction fuel with
  | zero =>
    intro start p h
    exact absurd h (by simp [findFrom])
  | succ f ih =>
    intro start p h
    rw [findFrom] at h
    by_cases hp : pred start = true
    · rw [if_pos hp] at h
      obtain rfl : start = p := by injection h
      refine ⟨le_refl _, by omega, hp, ?_⟩
      intro q h1 h2
      exact absurd (h1.trans_lt h2) (lt_irrefl start)
    · rw [if_neg hp] at h
      simp only [Bool.not_eq_true] at hp
      obtain ⟨h1, h2, h3, h4⟩ := ih (start + 1) p h
      refine ⟨by omega, by omega, h3, ?_⟩
      intro q hq1 hq2
      by_cases hq : q = start
      · rw [hq]
        exact hp
      · exact h4 q (by omega) hq2

/-! ## Concrete example states used by witnesses and counterexamples -/

/-- A healthy running service, as after a successful start and first
healthy sample: pid 1234 on local port 8080. -/
def runEx : ServiceState :=
  { status := .Running, localPort := 8080, pid := 1234, startTime := 0,
    restartCount := 0, lastError := "", statusMessage := "",
    inCooldown := false, hasCmd := true, failureCount := 0,
    cooldownUntil := 0, consecutiveFailures := 0, healthCheckFailures := 0 }

/-- A degraded service as it is right after leaving `Running`: counter
primed to 2, connectivity message set. -/
def degEx : ServiceState :=
  { runEx with status := .Degraded, consecutiveFailures := 2,
               statusMessage := "Port connectivity issues" }

/-- A failed service as it is right after crossing the failure threshold. -/
def failEx : ServiceState :=
  { runEx with status := .Failed, consecutiveFailures := 3,
               lastError := portNotRespondingMsg 8080 }

/-! ## C1 — auth-classified spawn failures leave the local cooldown state alone -/

/-- C1: for every spawn failure whose combined error + stderr text is
auth-classified, the per-service cooldown state is unchanged — the failure
count indexing the local backoff schedule is not incremented and
`cooldownUntil` is not advanced. -/
theorem C1_authSpawnFailureKeepsLocalCooldown (s : ServiceState) (now : Nat)
    (combined errMsg : String) (h : isAuthError combined = true) :
    (startSpawnFailure s now combined errMsg).failureCount = s.failureCount ∧
    (startSpawnFailure s now combined errMsg).cooldownUntil = s.cooldownUntil := by
  simp [startSpawnFailure, h]

/-- Witness for C1 at a concrete auth-classified failure text. -/
theorem C1_witness :
    (startSpawnFailure runEx 100 "error: Unauthorized" "spawn failed").failureCount = 0 ∧
    (startSpawnFailure runEx 100 "error: Unauthorized" "spawn failed").cooldownUntil = 0 :=
  C1_authSpawnFailureKeepsLocalCooldown runEx 100 "error: Unauthorized" "spawn failed"
    (by decide)

/-! ## C6 — per-service backoff schedule -/

/-- C6 counterexample: an auth-classified spawn failure does **not**
increment the failure count (so "each spawn failure increments the
per-service failure count" is false as stated): from failure count 2,
an auth-classified spawn failure leaves the count at 2 and sets no
cooldown. -/
theorem C6_counterexample :
    (startSpawnFailure
      { runEx with failureCount := 2 } 100 "error: Unauthorized" "spawn failed").failureCount = 2 ∧
    (startSpawnFailure
      { runEx with failureCount := 2 } 100 "error: Unauthorized" "spawn failed").cooldownUntil = 0 := by
  decide

/-- C6 (amended): each spawn failure that is not auth-classified increments
the failure count; below 3 failures the cooldown is untouched; from the
3rd failure on, `cooldownUntil := now + {5,10,20,40,60}[failureCount−3]`
clamped to the last element, so the cooldowns run 5, 10, 20, 40, 60, 60, … -/
theorem C6_backoffSchedule (s : ServiceState) (now : Nat) (combined errMsg : String)
    (hna : isAuthError combined = false) :
    (startSpawnFailure s now combined errMsg).failureCount = s.failureCount + 1 ∧
    (s.failureCount + 1 < 3 →
      (startSpawnFailure s now combined errMsg).cooldownUntil = s.cooldownUntil) ∧
    (3 ≤ s.failureCount + 1 →
      (startSpawnFailure s now combined errMsg).cooldownUntil =
        now + backoffSeconds.getD (min (s.failureCount + 1 - 3) 4) 0) ∧
    (s.failureCount = 2 →
      (startSpawnFailure s now combined errMsg).cooldownUntil = now + 5) ∧
    (s.failureCount = 3 →
      (startSpawnFailure s now combined errMsg).cooldownUntil = now + 10) ∧
    (s.failureCount = 4 →
      (startSpawnFailure s now combined errMsg).cooldownUntil = now + 20) ∧
    (s.failureCount = 5 →
      (startSpawnFailure s now combined errMsg).cooldownUntil = now + 40) ∧
    (s.failureCount = 6 →
      (startSpawnFailure s now combined errMsg).cooldownUntil = now + 60) ∧
    (7 ≤ s.failureCount →
      (startSpawnFailure s now combined errMsg).cooldownUntil = now + 60) := by
  simp only [startSpawnFailure, hna, Bool.false_eq_true, if_false, handleFailure,
    backoffSeconds]
  refine ⟨by split <;> rfl, ?_, ?_, ?_, ?_, ?_, ?_, ?_, ?_⟩ <;> intro h
  · rw [if_pos h]
  · rw [if_neg (by omega)]
    norm_num
  · rw [h]; rfl
  · rw [h]; rfl
  · rw [h]; rfl
  · rw [h]; rfl
  · rw [h]; rfl
  · rw [if_neg (by omega)]
    have h4 : (s.failureCount + 1 - 3) ⊓ ([(5 : Nat), 10, 20, 40, 60].length - 1) = 4 := by
      simp only [List.length_cons, List.length_nil]
      omega
    rw [h4]; rfl

/-- Witness for C6 on a concrete non-auth failure: the 3rd failure sets a
5-second cooldown. -/
theorem C6_witness :
    (startSpawnFailure { runEx with failureCount := 2 } 100
      "connection refused" "spawn failed").failureCount = 3 ∧
    (startSpawnFailure { runEx with failureCount := 2 } 100
      "connection refused" "spawn failed").cooldownUntil = 105 :=
  ⟨(C6_backoffSchedule { runEx with failureCount := 2 } 100
      "connection refused" "spawn failed" (by decide)).1,
   (C6_backoffSchedule { runEx with failureCount := 2 } 100
      "connection refused" "spawn failed" (by decide)).2.2.2.1 rfl⟩

/-! ## C2 — Running → Degraded → Failed hysteresis -/

/-- C2 counterexample: from `Running` with a zero consecutive-failure
counter, the service is `Failed` after only **2** consecutive unhealthy
samples (the claim says it reaches Failed only after 3): entering
`Degraded` primes the counter to 2, and the very next unhealthy sample
raises it to the threshold 3. -/
theorem C2_counterexample :
    (getStatusUpdate runEx true true false).status = Status.Degraded ∧
    (getStatusUpdate runEx true true false).consecutiveFailures = 2 ∧
    (getStatusUpdate (getStatusUpdate runEx true true false) true true false).status =
      Status.Failed := by
  decide

/-- C2 (amended): from `Running`, one unhealthy sample moves the service to
`Degraded` and primes the consecutive-failure counter to 2; each further
unhealthy sample in `Degraded` increments the counter, and the service
moves to `Failed` exactly when the counter reaches the threshold 3 — that
is, on the second consecutive unhealthy sample after `Running` — with a
last-error message distinguishing a dead process from an unreachable
port. -/
theorem C2_runningToFailed (s : ServiceState) (procR portC : Bool)
    (hu : procR && portC = false) :
    (s.status = .Running →
      (getStatusUpdate s true procR portC).status = .Degraded ∧
      (getStatusUpdate s true procR portC).consecutiveFailures = 2 ∧
      (getStatusUpdate s true procR portC).statusMessage = "Port connectivity issues") ∧
    (s.status = .Degraded → 3 ≤ s.consecutiveFailures + 1 →
      (getStatusUpdate s true procR portC).status = .Failed ∧
      (getStatusUpdate s true procR portC).consecutiveFailures = 3 ∧
      (getStatusUpdate s true procR portC).lastError =
        (if procR = false then processNotRunningMsg s.pid
         else portNotRespondingMsg s.localPort)) ∧
    (s.status = .Degraded → s.consecutiveFailures + 1 < 3 →
      (getStatusUpdate s true procR portC).status = .Degraded ∧
      (getStatusUpdate s true procR portC).consecutiveFailures =
        s.consecutiveFailures + 1) := by
  refine ⟨?_, ?_, ?_⟩
  · intro hs
    cases procR <;> cases portC <;>
      simp_all [getStatusUpdate, maxFailureThreshold]
  · intro hs h3
    cases procR <;> cases portC <;>
      simp_all [getStatusUpdate, maxFailureThreshold]
  · intro hs h3
    cases procR <;> cases portC <;>
      simp_all [getStatusUpdate, maxFailureThreshold]
    rw [if_neg (show ¬ ((3 : Int) ≤ s.consecutiveFailures + 1) by omega)]
    simp

/-- Witness for C2 at a concrete state: a `Running` service whose port
probe fails becomes `Degraded` with counter 2, and a `Degraded` service
with counter 2 whose port probe fails becomes `Failed` with the
port-not-responding error. -/
theorem C2_witness :
    ((getStatusUpdate runEx true true false).status = Status.Degraded ∧
      (getStatusUpdate runEx true true false).consecutiveFailures = 2 ∧
      (getStatusUpdate runEx true true false).statusMessage = "Port connectivity issues") ∧
    ((getStatusUpdate degEx true true false).status = Status.Failed ∧
      (getStatusUpdate degEx true true false).consecutiveFailures = 3 ∧
      (getStatusUpdate degEx true true false).lastError =
        (if (true = false) then processNotRunningMsg degEx.pid
         else portNotRespondingMsg degEx.localPort)) :=
  ⟨(C2_runningToFailed runEx true false (by decide)).1 rfl,
   (C2_runningToFailed degEx true false (by decide)).2.1 rfl (by decide)⟩

/-! ## C3 — recovery hysteresis (Degraded and Failed) -/

/-- C3: a `Degraded` service with the entry counter 2 needs exactly 2
consecutive healthy samples to return to `Running`; a `Failed` service is
returned **unchanged** by the health evaluation (the guard in `GetStatus`
excludes `Failed`), so no number of consecutive healthy samples ever moves
`Failed` back to `Running` — the source's own Failed-recovery branch and
the repository's state-diagram document are unreachable. -/
theorem C3_recoveryHysteresis (s : ServiceState) (g procR portC : Bool) :
    (s.status = .Failed → getStatusUpdate s g procR portC = s) ∧
    (s.status = .Degraded → s.consecutiveFailures = 2 →
      (getStatusUpdate s true true true).status = .Degraded ∧
      (getStatusUpdate s true true true).consecutiveFailures = 1 ∧
      (getStatusUpdate (getStatusUpdate s true true true) true true true).status =
        .Running) := by
  constructor
  · intro hs
    simp [getStatusUpdate, hs]
  · intro hs hc
    simp [getStatusUpdate, hs, hc, maxFailureThreshold]

/-- Witness for C3: a concrete `Failed` service is untouched by a healthy
sample, and a concrete `Degraded` service with counter 2 needs the second
healthy sample to become `Running`. -/
theorem C3_witness :
    getStatusUpdate failEx true true true = failEx ∧
    ((getStatusUpdate degEx true true true).status = Status.Degraded ∧
     (getStatusUpdate degEx true true true).consecutiveFailures = 1 ∧
     (getStatusUpdate (getStatusUpdate degEx true true true) true true true).status =
       Status.Running) :=
  ⟨(C3_recoveryHysteresis failEx true true true).1 rfl,
   (C3_recoveryHysteresis degEx true true true).2 rfl rfl⟩

/-! ## C5 — fleet-wide suspension and the port registry -/

/-- A running service bound to local port 9100, together with a registry
in which 9100 is reserved (as the Swagger UI handler does via
`FindAvailablePortSafe(9100)`). -/
def susEx : ServiceState := { runEx with localPort := 9100 }

/-- C5 counterexample: `suspendAllServices` never releases ports — after
suspending a `Running` service bound to port 9100 while 9100 is in the
registry's reserved set, the service is `Suspended` with its bound port
**still reserved**, contradicting the claimed postcondition
`Suspended ⇒ bound port ∉ reserved`. -/
theorem C5_counterexample :
    (suspendService susEx).status = Status.Suspended ∧
    (suspendService susEx).localPort = 9100 ∧
    (suspendAllServices [("svc", susEx)] [9100]).2.contains 9100 = true ∧
    (suspendAllServices [("svc", susEx)] [9100]).1 = [("svc", suspendService susEx)] := by
  refine ⟨by decide, by decide, by decide, rfl⟩

/-- C5 (amended): when the gate reports unhealthy, suspend-all turns every
service whose status is in {Running, Degraded, Connecting, Reconnecting}
into a `Suspended` service with the child killed, pid 0 and start time
cleared (and the bound port kept), leaves services in any other status
unchanged, and leaves the Port Registry's reserved set untouched. -/
theorem C5_suspendAllServices (fleet : List (String × ServiceState))
    (reserved : List Nat) (s : ServiceState) :
    (suspendAllServices fleet reserved).2 = reserved ∧
    (suspendAllServices fleet reserved).1 =
      fleet.map (fun p => (p.1, suspendService p.2)) ∧
    ((s.status = .Running ∨ s.status = .Degraded ∨
      s.status = .Connecting ∨ s.status = .Reconnecting) →
      (suspendService s).status = .Suspended ∧
      (suspendService s).pid = 0 ∧
      (suspendService s).startTime = 0 ∧
      (suspendService s).hasCmd = false ∧
      (suspendService s).localPort = s.localPort) ∧
    (¬(s.status = .Running ∨ s.status = .Degraded ∨
       s.status = .Connecting ∨ s.status = .Reconnecting) →
      suspendService s = s) := by
  refine ⟨rfl, rfl, ?_, ?_⟩
  · intro h
    simp [suspendService, h]
  · intro h
    simp [suspendService, h]

/-- Witness for C5 on concrete services: an active one is suspended with
pid 0, an already-`Stopped` one is untouched. -/
theorem C5_witness :
    ((suspendService susEx).status = Status.Suspended ∧
      (suspendService susEx).pid = 0 ∧
      (suspendService susEx).startTime = 0 ∧
      (suspendService susEx).hasCmd = false ∧
      (suspendService susEx).localPort = susEx.localPort) ∧
    suspendService { runEx with status := .Stopped } =
      { runEx with status := .Stopped } :=
  ⟨(C5_suspendAllServices [] [] susEx).2.2.1 (Or.inl rfl),
   (C5_suspendAllServices [] [] { runEx with status := .Stopped }).2.2.2 (by decide)⟩

/-! ## C7 — context-change trigger condition -/

/-- C7 counterexample: a successful read whose stdout is just a newline
yields the empty context string, which **does** trigger the
teardown-and-restart (the source only excludes the sentinel `"N/A"`),
contradicting the claimed "and is non-empty" condition. -/
theorem C7_counterexample :
    trimTrailingNewline "\n" = "" ∧
    (checkKubernetesContext "prod" (some "\n")).2 = true := by
  refine ⟨by decide, by decide⟩

/-- C7 (amended): the teardown-and-restart is triggered iff the trimmed
context string was read successfully, differs from the cached context, and
differs from the sentinel `"N/A"` (the value substituted on a read
failure); emptiness is not checked.  When reading the context fails, no
teardown is triggered and the cached context is unchanged. -/
theorem C7_contextChangeTrigger (current : String) (reading : Option String) :
    ((checkKubernetesContext current reading).2 = true ↔
      ∃ raw, reading = some raw ∧ trimTrailingNewline raw ≠ current ∧
        trimTrailingNewline raw ≠ "N/A") ∧
    (reading = none → checkKubernetesContext current reading = (current, false)) := by
  constructor
  · cases reading with
    | none => simp [checkKubernetesContext]
    | some raw =>
      simp only [checkKubernetesContext, Option.some.injEq]
      constructor
      · intro h
        by_cases hc : trimTrailingNewline raw ≠ current ∧ trimTrailingNewline raw ≠ "N/A"
        · exact ⟨raw, rfl, hc⟩
        · rw [if_neg hc] at h
          simp at h
      · rintro ⟨r, hr, h1, h2⟩
        subst hr
        rw [if_pos ⟨h1, h2⟩]
  · intro h
    subst h
    rfl

/-- Witness for C7: a read of `"dev\n"` against cached context `"prod"`
triggers the teardown; a failed read does not. -/
theorem C7_witness :
    (checkKubernetesContext "prod" (some "dev\n")).2 = true ∧
    checkKubernetesContext "prod" none = ("prod", false) :=
  ⟨(C7_contextChangeTrigger "prod" (some "dev\n")).1.mpr
      ⟨"dev\n", rfl, by decide, by decide⟩,
   (C7_contextChangeTrigger "prod" none).2 rfl⟩

/-! ## C8 — restart counts -/

/-- C8 counterexample: the context-change teardown-and-restart leaves the
restart count unchanged (the claim says it increments by exactly 1): a
service with restart count 5 still has restart count 5 after the
context-change stop/start cycle. -/
theorem C8_counterexample :
    ((contextChangeService { runEx with restartCount := 5 } 100
        (Sum.inl 8080) (Sum.inl 4321)).1).restartCount = 5 := by
  decide

/-- C8 (amended): the context-change teardown-and-restart leaves each
service's restart count unchanged (it stops and freshly starts services
without going through `Restart`); `Restart` — used for failed-service
restarts and post-suspension resumes — increments it by exactly 1; and no
modelled operation (`Stop`, `Start`, the health evaluation of `GetStatus`,
suspension, the backoff handler, the spawn-failure path) ever decreases or
resets it. -/
theorem C8_restartCount (s : ServiceState) (now : Nat)
    (portRes spawn : Sum Nat String) (g p q : Bool) (c m : String) :
    ((contextChangeService s now portRes spawn).1).restartCount = s.restartCount ∧
    ((smRestart s now portRes spawn).1).restartCount = s.restartCount + 1 ∧
    (smStop s).restartCount = s.restartCount ∧
    ((smStart s now portRes spawn).1).restartCount = s.restartCount ∧
    (getStatusUpdate s g p q).restartCount = s.restartCount ∧
    (suspendService s).restartCount = s.restartCount ∧
    (handleFailure s now).restartCount = s.restartCount ∧
    (startSpawnFailure s now c m).restartCount = s.restartCount := by
  have hStart : ∀ (t : ServiceState),
      ((smStart t now portRes spawn).1).restartCount = t.restartCount := by
    intro t
    rcases portRes with p' | e <;> rcases spawn with p'' | e' <;>
      simp [smStart, handleFailure,
        apply_ite (fun pr : ServiceState × Bool => pr.1.restartCount),
        apply_ite (fun st : ServiceState => st.restartCount)]
  have hGet : (getStatusUpdate s g p q).restartCount = s.restartCount := by
    simp [getStatusUpdate, resetFailureCount,
      apply_ite (fun st : ServiceState => st.restartCount)]
  refine ⟨?_, ?_, rfl, hStart s, hGet, ?_, ?_, ?_⟩
  · exact hStart _
  · exact hStart _
  · unfold suspendService
    split <;> rfl
  · simp [handleFailure, apply_ite (fun st : ServiceState => st.restartCount)]
  · simp [startSpawnFailure, handleFailure,
      apply_ite (fun st : ServiceState => st.restartCount)]

/-- Witness for C8 at concrete inputs: a successful context-change cycle
keeps the count at 5, a successful `Restart` raises it to 6. -/
theorem C8_witness :
    ((contextChangeService { runEx with restartCount := 5 } 100
        (Sum.inl 8080) (Sum.inl 4321)).1).restartCount = 5 ∧
    ((smRestart { runEx with restartCount := 5 } 100
        (Sum.inl 8080) (Sum.inl 4321)).1).restartCount = 5 + 1 :=
  ⟨(C8_restartCount { runEx with restartCount := 5 } 100
      (Sum.inl 8080) (Sum.inl 4321) true true true "" "").1,
   (C8_restartCount { runEx with restartCount := 5 } 100
      (Sum.inl 8080) (Sum.inl 4321) true true true "" "").2.1⟩

/-! ## C10 — global status string -/

/-- C10: whenever the gate is unhealthy, the snapshot tag is
`"auth_failure"` iff the fail count is positive and more than 2 minutes of
global cooldown remain, and `"network_failure"` otherwise — so an
auth-classified failure is reported as `"network_failure"` during the last
2 minutes of its cooldown window. -/
theorem C10_globalStatusString (st : GlobalAccess) (now : Nat)
    (h : st.healthy = false) :
    (getGlobalStatusString st now = "auth_failure" ↔
      0 < st.failCount ∧ 120 < st.cooldown - now) ∧
    (¬(0 < st.failCount ∧ 120 < st.cooldown - now) →
      getGlobalStatusString st now = "network_failure") := by
  simp only [getGlobalStatusString, h, Bool.false_eq_true, if_false]
  constructor
  · constructor
    · intro he
      by_cases h1 : 0 < st.failCount
      · refine ⟨h1, ?_⟩
        rw [if_pos h1] at he
        by_cases h2 : now < st.cooldown
        · rw [if_pos h2] at he
          by_cases h3 : 120 < st.cooldown - now
          · exact h3
          · rw [if_neg h3] at he; exact absurd he (by decide)
        · rw [if_neg h2] at he; exact absurd he (by decide)
      · rw [if_neg h1] at he; exact absurd he (by decide)
    · rintro ⟨h1, h3⟩
      rw [if_pos h1, if_pos (by omega), if_pos h3]
  · intro hn
    by_cases h1 : 0 < st.failCount
    · rw [if_pos h1]
      by_cases h2 : now < st.cooldown
      · rw [if_pos h2, if_neg (by tauto)]
      · rw [if_neg h2]
    · rw [if_neg h1]

/-- Witness for C10: an auth-classified failure 100 s before its cooldown
expiry is tagged `"network_failure"`; one 590 s before expiry is tagged
`"auth_failure"`. -/
theorem C10_witness :
    getGlobalStatusString ⟨false, 0, 1, 110⟩ 10 = "network_failure" ∧
    getGlobalStatusString ⟨false, 0, 1, 600⟩ 10 = "auth_failure" :=
  ⟨(C10_globalStatusString ⟨false, 0, 1, 110⟩ 10 rfl).2 (by decide),
   (C10_globalStatusString ⟨false, 0, 1, 600⟩ 10 rfl).1.mpr (by decide)⟩

/-! ## C4 — global-access probe, cooldown schedules and skip window -/

/-- C4: each failed global probe sets the gate unhealthy, increments the
fail count and installs `cooldown := now + schedule[min(failCount−1, 2)]`
with the auth schedule {5 min, 10 min, 30 min} when the error text is
auth-classified (contains `"authentication"`, which every auth-classified
`checkGlobalAccess` error does) and the network schedule
{30 s, 1 min, 2 min} otherwise; a successful probe resets the fail count
and clears the cooldown; inside the cooldown window the probe is skipped
except that an unhealthy gate re-probes once at least 5 s have passed
since the last check. -/
theorem C4_globalAccessGate (st : GlobalAccess) (now : Nat)
    (probe : Option String) (e : String) :
    (now < st.cooldown → st.healthy = true →
      checkAndUpdateGlobalAccess st now probe = (true, st)) ∧
    (now < st.cooldown → st.healthy = false → now - st.lastCheck < 5 →
      checkAndUpdateGlobalAccess st now probe = (false, st)) ∧
    (now < st.cooldown → st.healthy = false → 5 ≤ now - st.lastCheck →
      checkAndUpdateGlobalAccess st now probe = globalProbeStep st now probe) ∧
    (st.cooldown ≤ now →
      checkAndUpdateGlobalAccess st now probe = globalProbeStep st now probe) ∧
    (globalProbeStep st now (some e) =
      (false, { healthy := false, lastCheck := now, failCount := st.failCount + 1,
                cooldown := now +
                  (if containsStr e "authentication" then authCooldowns
                   else networkCooldowns).getD (min st.failCount 2) 0 })) ∧
    ((st.healthy = true → st.failCount = 0 ∧ st.cooldown = 0) →
      globalProbeStep st now none = (true, ⟨true, now, 0, 0⟩)) ∧
    (∀ errText stderr msg,
      isAuthError ⟨errText.data ++ ' ' :: stderr.data⟩ = true →
      checkGlobalAccess true errText stderr = some msg →
      containsStr msg "authentication" = true) := by
  refine ⟨?_, ?_, ?_, ?_, ?_, ?_, ?_⟩
  · intro h1 h2
    simp [checkAndUpdateGlobalAccess, h1, h2]
  · intro h1 h2 h3
    simp [checkAndUpdateGlobalAccess, h1, h2, h3]
  · intro h1 h2 h3
    have h4 : ¬(now - st.lastCheck < 5) := by omega
    simp [checkAndUpdateGlobalAccess, h1, h2, h4]
  · intro h1
    have h2 : ¬(now < st.cooldown) := by omega
    simp [checkAndUpdateGlobalAccess, h2]
  · by_cases hc : containsStr e "authentication" = true <;>
      simp [globalProbeStep, hc, authCooldowns, networkCooldowns]
  · intro hinv
    cases hst : st.healthy with
    | false => simp [globalProbeStep, hst]
    | true =>
      obtain ⟨h0, hcool⟩ := hinv hst
      cases st
      simp_all [globalProbeStep]
  · intro errText stderr msg hauth hcheck
    simp only [checkGlobalAccess, if_pos, hauth, if_true, Option.some.injEq] at hcheck
    rw [← hcheck]
    rfl

/-- Witness for C4: a concrete unhealthy gate 2 s after its last check
skips the probe; a concrete first auth failure installs a 5-minute
cooldown. -/
theorem C4_witness :
    checkAndUpdateGlobalAccess ⟨false, 8, 1, 100⟩ 10 (some "x") = (false, ⟨false, 8, 1, 100⟩) ∧
    globalProbeStep ⟨true, 0, 0, 0⟩ 10 (some "authentication failed: boom") =
      (false, ⟨false, 10, 1, 310⟩) :=
  ⟨(C4_globalAccessGate ⟨false, 8, 1, 100⟩ 10 (some "x") "x").2.1
      (by decide) rfl (by decide),
   ((C4_globalAccessGate ⟨true, 0, 0, 0⟩ 10 (some "authentication failed: boom")
        "authentication failed: boom").2.2.2.2.1).trans (by decide)⟩

/-! ## C9 — port scan: first fit, reservation, exhaustion -/

/-- C9: `FindAvailablePortSafe` scans `start, start+1, …, 65535` in
increasing order and returns the first port that is neither reserved
in-process nor OS-unavailable (both loopback binds must succeed), marking
it reserved; it returns the exhaustion error (`none`) exactly when no port
up to 65535 qualifies — in particular at the boundary `start = 65535` with
65535 in use. -/
theorem C9_findAvailablePortSafe (reserved : List Nat) (avail4 avail6 : Nat → Bool)
    (startPort p : Nat) (r' : List Nat) :
    (findAvailablePortSafe reserved avail4 avail6 startPort = some (p, r') →
      startPort ≤ p ∧ p ≤ 65535 ∧ reserved.contains p = false ∧
      isPortAvailable avail4 avail6 p = true ∧ r' = p :: reserved ∧
      ∀ q, startPort ≤ q → q < p →
        ¬(reserved.contains q = false ∧ isPortAvailable avail4 avail6 q = true)) ∧
    (findAvailablePortSafe reserved avail4 avail6 startPort = none ↔
      ∀ q, startPort ≤ q → q ≤ 65535 →
        ¬(reserved.contains q = false ∧ isPortAvailable avail4 avail6 q = true)) ∧
    findAvailablePortSafe [] (fun _ => false) (fun _ => true) 65535 = none := by
  have hfree : ∀ q, portFree reserved avail4 avail6 q = false ↔
      ¬(reserved.contains q = false ∧ isPortAvailable avail4 avail6 q = true) := by
    intro q
    unfold portFree
    cases hc : reserved.contains q <;> cases ha : isPortAvailable avail4 avail6 q <;>
      decide
  refine ⟨?_, ?_, rfl⟩
  · intro h
    unfold findAvailablePortSafe at h
    cases hF : findFrom (portFree reserved avail4 avail6) startPort
        (65536 - startPort) with
    | none => rw [hF] at h; exact absurd h (by simp)
    | some port =>
      rw [hF] at h
      simp only [Option.some.injEq, Prod.mk.injEq] at h
      obtain ⟨rfl, rfl⟩ := h
      obtain ⟨h1, h2, h3, h4⟩ := findFrom_some _ _ _ _ hF
      have h3' : reserved.contains port = false ∧
          isPortAvailable avail4 avail6 port = true := by
        unfold portFree at h3
        simp only [Bool.and_eq_true, Bool.not_eq_true'] at h3
        exact h3
      refine ⟨h1, by omega, h3'.1, h3'.2, rfl, ?_⟩
      intro q hq1 hq2
      exact (hfree q).mp (h4 q hq1 hq2)
  · unfold findAvailablePortSafe
    cases hF : findFrom (portFree reserved avail4 avail6) startPort
        (65536 - startPort) with
    | some port =>
      constructor
      · intro h
        exact absurd h (by simp)
      · intro hall
        obtain ⟨h1, h2, h3, _⟩ := findFrom_some _ _ _ _ hF
        have hq := (hfree port).mpr (hall port h1 (by omega))
        rw [hq] at h3
        exact absurd h3 (by simp)
    | none =>
      have hFn := hF
      rw [findFrom_none_iff] at hFn
      constructor
      · intro _ q hq1 hq2
        exact (hfree q).mp (hFn q hq1 (by omega))
      · intro _
        rfl

/-- Witness for C9: scanning from 65530 with 65530–65531 OS-unavailable and
65532 reserved returns 65533 and reserves it; the exhaustion boundary at
65535 returns the error. -/
theorem C9_witness :
    (65530 ≤ 65533 ∧ 65533 ≤ 65535 ∧ ([65532].contains 65533) = false) ∧
    findAvailablePortSafe [] (fun _ => false) (fun _ => true) 65535 = none := by
  have h := (C9_findAvailablePortSafe [65532] (fun q => decide (65532 ≤ q))
      (fun _ => true) 65530 65533 [65533, 65532]).1 (by decide)
  exact ⟨⟨h.1, h.2.1, h.2.2.1⟩,
    (C9_findAvailablePortSafe [] (fun _ => false) (fun _ => true) 0 0 []).2.2⟩
